import Mathlib

/-!
Verification of the Usage Analytics & Cost Projection Engine
(`streamlit_app.py`).  The numeric pipeline is embedded shallowly:

* numeric cells are rationals; the element-wise float operations that can
  produce NaN or infinity (pandas/numpy division, multiplication, addition)
  are modelled by `PVal`, a rational extended with `inf`, `ninf` and `nan`
  following IEEE-754 semantics;
* dataframes are lists of records; `sort_values` is a stable sort,
  `groupby(...).transform(rolling(...))` is computed per service group in
  frame order, `groupby(...).last()` takes the last row of each group in
  frame order.
-/

namespace CortexCalc

/-- Model of a pandas float cell: a finite rational, positive or negative
infinity, or NaN.  Element-wise operations follow IEEE-754 as implemented by
numpy. -/
inductive PVal where
  | num (q : ℚ)
  | inf
  | ninf
  | nan
deriving DecidableEq

namespace PVal

/-- IEEE division: `x / 0` is `±inf` for `x ≠ 0` and NaN for `x = 0`;
anything with NaN is NaN. -/
def pdiv : PVal → PVal → PVal
  | nan, _ => nan
  | num a, num b =>
      if b ≠ 0 then num (a / b)
      else if 0 < a then inf
      else if a < 0 then ninf
      else nan
  | num _, inf => num 0
  | num _, ninf => num 0
  | num _, nan => nan
  | inf, num b => if 0 ≤ b then inf else ninf
  | inf, _ => nan
  | ninf, num b => if 0 ≤ b then ninf else inf
  | ninf, _ => nan

/-- IEEE multiplication of a float cell by a finite scalar: `inf * 0` is
NaN. -/
def pmulc : PVal → ℚ → PVal
  | num a, k => num (a * k)
  | inf, k => if 0 < k then inf else if k < 0 then ninf else nan
  | ninf, k => if 0 < k then ninf else if k < 0 then inf else nan
  | nan, _ => nan

/-- IEEE addition: NaN is absorbing, `inf + ninf` is NaN. -/
def padd : PVal → PVal → PVal
  | nan, _ => nan
  | num a, num b => num (a + b)
  | num _, inf => inf
  | num _, ninf => ninf
  | num _, nan => nan
  | inf, ninf => nan
  | inf, nan => nan
  | inf, _ => inf
  | ninf, inf => nan
  | ninf, nan => nan
  | ninf, _ => ninf

/-- Python `sum` over float values: a left fold starting at 0. -/
def psum (l : List PVal) : PVal := l.foldl padd (num 0)

/-- The pandas `Series.fillna(0)`: replaces NaN by 0 and leaves infinities
alone. -/
def fillna0 : PVal → PVal
  | nan => num 0
  | v => v

end PVal

/-- One input row: a (date, service_type) usage record.  Dates are integers
preserving calendar order; numeric fields are rationals. -/
structure UsageRecord where
  date : ℤ
  service_type : String
  daily_unique_users : ℚ
  total_operations : ℚ
  total_credits : ℚ
deriving DecidableEq

/-- The `df.sort_values('DATE')` step: stable ascending sort by date. -/
def sortByDateAsc (df : List UsageRecord) : List UsageRecord :=
  List.insertionSort (fun a b => a.date ≤ b.date) df

/-- Distinct service types present in the frame (the `groupby` group keys;
key ordering is irrelevant to every computation below). -/
def services (df : List UsageRecord) : List String :=
  (df.map (·.service_type)).dedup

/-- Rows of service `s` of the date-ascending frame, in frame order: the
per-group sequence seen by `groupby('SERVICE_TYPE')` after
`sort_values('DATE')` (groupby keeps the frame order of rows inside each
group). -/
def serviceGroup (df : List UsageRecord) (s : String) : List UsageRecord :=
  (sortByDateAsc df).filter (fun r => r.service_type = s)

/-- Trailing window of `rolling(window=30, min_periods=1)` at 0-indexed
position `i`: the last at-most-30 entries among the first `i + 1`. -/
def window30 (l : List UsageRecord) (i : ℕ) : List UsageRecord :=
  (l.take (i + 1)).drop (i + 1 - 30)

/-- One output row of `calculate_30day_totals`: the input record together
with its rolling-window aggregate columns. -/
structure AggRow where
  record : UsageRecord
  credits_30d_total : ℚ
  operations_30d_total : ℚ
  users_30d_avg : ℚ
  cost_per_user_30d : PVal
deriving DecidableEq

/-- Aggregate columns for the record at position `i` of its service group:
rolling sums of `TOTAL_CREDITS` and `TOTAL_OPERATIONS`, rolling mean of
`DAILY_UNIQUE_USERS`, and `cost_per_user_30d = credits_30d_total /
users_30d_avg` followed by `fillna(0)`. -/
def rollingAgg (g : List UsageRecord) (i : ℕ) (r : UsageRecord) : AggRow :=
  let w := window30 g i
  let credits := (w.map (·.total_credits)).sum
  let ops := (w.map (·.total_operations)).sum
  let users := (w.map (·.daily_unique_users)).sum / (w.length : ℚ)
  { record := r
    credits_30d_total := credits
    operations_30d_total := ops
    users_30d_avg := users
    cost_per_user_30d := PVal.fillna0 (PVal.pdiv (PVal.num credits) (PVal.num users)) }

/-- Aggregated rows of one service, in date-ascending order. -/
def aggsFor (df : List UsageRecord) (s : String) : List AggRow :=
  (serviceGroup df s).enum.map (fun p => rollingAgg (serviceGroup df s) p.1 p.2)

/-- Embedding of `calculate_30day_totals`: per-service rolling 30-record
aggregates over the date-sorted frame, returned sorted descending by date
(the function ends with `sort_values('DATE', ascending=False)`). -/
def calculate_30day_totals (df : List UsageRecord) : List AggRow :=
  List.insertionSort (fun a b => b.record.date ≤ a.record.date)
    ((services df).flatMap (aggsFor df))

/-- The `groupby('SERVICE_TYPE').last()` row for service `s`: the last row
of that service in the current frame order (pandas takes per-column last
entries in row order; with no missing cells that is the last row of the
group). -/
def groupbyLast (rows : List AggRow) (s : String) : Option AggRow :=
  (rows.filter (fun a => a.record.service_type = s)).getLast?

/-- Reference aggregate the callers consume for service `s`:
`calculate_30day_totals(df).groupby('SERVICE_TYPE').last()`. -/
def latest_30d_row (df : List UsageRecord) (s : String) : Option AggRow :=
  groupbyLast (calculate_30day_totals df) s

/-- One output row of `calculate_growth_projection`. -/
structure ProjectionPoint where
  month : ℕ
  service_type : String
  projected_credits : ℚ
  projected_users : ℚ
  projected_cost_usd : ℚ
  cost_per_user_usd : ℚ
  growth_rate : ℚ
deriving DecidableEq

/-- Per-service baseline credits of the projection engine:
`groupby('SERVICE_TYPE')['TOTAL_CREDITS'].sum()` over the whole frame handed
to the engine (this same grouping also yields the summary breakdown's
per-service credits totals). -/
def baseline_credits (df : List UsageRecord) (s : String) : ℚ :=
  ((df.filter (fun r => r.service_type = s)).map (·.total_credits)).sum

/-- Per-service baseline users: mean of `DAILY_UNIQUE_USERS` over the whole
frame handed to the engine. -/
def baseline_users (df : List UsageRecord) (s : String) : ℚ :=
  ((df.filter (fun r => r.service_type = s)).map (·.daily_unique_users)).sum /
    ((df.filter (fun r => r.service_type = s)).length : ℚ)

/-- The loop body of `calculate_growth_projection`: the point appended for
one (month, service) pair, compounding the full-history baseline by
`(1 + growth_rate) ^ month`; `cost_per_user_usd` falls back to 0 unless
`projected_users > 0`. -/
def growthPoint (df : List UsageRecord) (growth_rate credit_cost : ℚ)
    (s : String) (month : ℕ) : ProjectionPoint :=
  let growth_factor := (1 + growth_rate) ^ month
  let projected_credits := baseline_credits df s * growth_factor
  let projected_users := baseline_users df s * growth_factor
  let projected_cost := projected_credits * credit_cost
  { month := month
    service_type := s
    projected_credits := projected_credits
    projected_users := projected_users
    projected_cost_usd := projected_cost
    cost_per_user_usd :=
      if 0 < projected_users then projected_cost / projected_users else 0
    growth_rate := growth_rate }

/-- Embedding of `calculate_growth_projection`: one point for every month in
`1..projection_months` and every service present. -/
def calculate_growth_projection (df : List UsageRecord) (growth_rate : ℚ)
    (projection_months : ℕ) (credit_cost : ℚ) : List ProjectionPoint :=
  (List.range projection_months).flatMap (fun m0 =>
    (services df).map (fun s => growthPoint df growth_rate credit_cost s (m0 + 1)))

/-- The `requests_per_day` column of the persona calculator's reference
table: `operations_30d_total / 30`. -/
def requests_per_day (a : AggRow) : ℚ := a.operations_30d_total / 30

/-- The `cost_per_request` column of the reference table:
`(credits_30d_total * credit_cost) / operations_30d_total`, an unguarded
element-wise float division. -/
def cost_per_request (credit_cost : ℚ) (a : AggRow) : PVal :=
  PVal.pdiv (PVal.num (a.credits_30d_total * credit_cost))
    (PVal.num a.operations_30d_total)

/-- The `latest_30d` reference frame of `show_cost_per_user_calculator`: one
`groupby('SERVICE_TYPE').last()` row per service present. -/
def latestRows (df : List UsageRecord) : List AggRow :=
  (services df).filterMap (latest_30d_row df)

/-- Total monthly operations across the reference rows:
`latest_30d['requests_per_day'].sum() * 30`. -/
def total_ops (df : List UsageRecord) : ℚ :=
  ((latestRows df).map requests_per_day).sum * 30

/-- Total monthly cost across the reference rows: the float sum of
`requests_per_day * 30 * cost_per_request` over services. -/
def total_cost_30d (df : List UsageRecord) (credit_cost : ℚ) : PVal :=
  PVal.psum ((latestRows df).map
    (fun a => PVal.pmulc (cost_per_request credit_cost a) (requests_per_day a * 30)))

/-- The guarded blended unit cost:
`total_cost_30d / total_ops if total_ops > 0 else 0`. -/
def avg_cost_per_request (df : List UsageRecord) (credit_cost : ℚ) : PVal :=
  if 0 < total_ops df then
    PVal.pdiv (total_cost_30d df credit_cost) (PVal.num (total_ops df))
  else PVal.num 0

/-- An operator-defined persona: display name, user count, request rate. -/
structure Persona where
  name : String
  count : ℕ
  requests_per_day : ℕ
deriving DecidableEq

/-- Per-persona monthly requests: `requests_per_day * 30`. -/
def monthly_requests (p : Persona) : ℕ := p.requests_per_day * 30

/-- Per-persona monthly cost per user:
`monthly_requests * avg_cost_per_request`. -/
def cost_per_user_monthly (df : List UsageRecord) (credit_cost : ℚ)
    (p : Persona) : PVal :=
  PVal.pmulc (avg_cost_per_request df credit_cost) (monthly_requests p : ℚ)

/-- Per-persona total monthly cost: `cost_per_user_monthly * count`. -/
def total_cost_monthly (df : List UsageRecord) (credit_cost : ℚ)
    (p : Persona) : PVal :=
  PVal.pmulc (cost_per_user_monthly df credit_cost p) (p.count : ℚ)

/-- Fallback `requests_per_day` of the persona calculator (used only when the
rolling frame is empty): full-history per-service operations divided by the
number of distinct days, 0 when no days exist. -/
def fallback_requests_per_day (df : List UsageRecord) (s : String) : ℚ :=
  let num_days := ((df.map (·.date)).dedup).length
  if 0 < num_days then
    ((df.filter (fun r => r.service_type = s)).map (·.total_operations)).sum /
      (num_days : ℚ)
  else 0

/-- Fallback `cost_per_request`: the same unguarded float division applied to
full-history per-service totals. -/
def fallback_cost_per_request (df : List UsageRecord) (credit_cost : ℚ)
    (s : String) : PVal :=
  PVal.pdiv
    (PVal.num
      (((df.filter (fun r => r.service_type = s)).map (·.total_credits)).sum *
        credit_cost))
    (PVal.num
      (((df.filter (fun r => r.service_type = s)).map (·.total_operations)).sum))

/-- Upper-casing of a column name (`df.columns.str.upper()`), written over
the character list so that it evaluates. -/
def upperName (s : String) : String := ⟨s.data.map Char.toUpper⟩

/-- Outcome of the schema-validation step of `load_data_from_csv`. -/
inductive LoadResult where
  | ok (cols : List String)
  | schemaError (missing : List String)
deriving DecidableEq

/-- Embedding of the column handling of `load_data_from_csv`: the
required-column membership check runs on the raw header names as uploaded,
and only afterwards are the column names upper-cased. -/
def load_data_from_csv (cols : List String) : LoadResult :=
  let required := ["DATE", "SERVICE_TYPE", "TOTAL_CREDITS"]
  let missing := required.filter (fun c => decide (c ∉ cols))
  if missing = [] then LoadResult.ok (cols.map upperName)
  else LoadResult.schemaError missing

/-- Grand total credits of the summary breakdown:
`service_agg['TOTAL_CREDITS'].sum()`. -/
def grand_total_credits (df : List UsageRecord) : ℚ :=
  ((services df).map (baseline_credits df)).sum

/-- The `PCT_OF_TOTAL` column of the summary breakdown: element-wise float
division of each per-service credits sum by the grand total, times 100, with
no guard and no `fillna`. -/
def pct_of_total (df : List UsageRecord) (s : String) : PVal :=
  PVal.pmulc
    (PVal.pdiv (PVal.num (baseline_credits df s))
      (PVal.num (grand_total_credits df))) 100

/-! ## Helper lemmas -/

/-- Membership in `services` means some input record carries that
service type. -/
theorem mem_services {df : List UsageRecord} {s : String} :
    s ∈ services df ↔ ∃ u ∈ df, u.service_type = s := by
  simp [services, List.mem_dedup, List.mem_map]

/-- Membership in the projection output: exactly the points
`growthPoint df r c s m` for `s` present and `m ∈ [1..H]`. -/
theorem mem_growth_projection {df : List UsageRecord} {r c : ℚ} {H : ℕ}
    {p : ProjectionPoint} :
    p ∈ calculate_growth_projection df r H c ↔
      ∃ s ∈ services df, ∃ m, 1 ≤ m ∧ m ≤ H ∧ p = growthPoint df r c s m := by
  simp only [calculate_growth_projection, List.mem_flatMap, List.mem_range,
    List.mem_map]
  constructor
  · rintro ⟨m0, hm0, s, hs, rfl⟩
    exact ⟨s, hs, m0 + 1, Nat.le_add_left 1 m0, by omega, rfl⟩
  · rintro ⟨s, hs, m, hm1, hm2, rfl⟩
    refine ⟨m - 1, by omega, s, hs, ?_⟩
    congr 1
    omega

/-- Field values of an emitted projection point. -/
theorem growthPoint_fields (df : List UsageRecord) (r c : ℚ) (s : String)
    (m : ℕ) :
    (growthPoint df r c s m).month = m ∧
    (growthPoint df r c s m).service_type = s ∧
    (growthPoint df r c s m).projected_credits =
      baseline_credits df s * (1 + r) ^ m ∧
    (growthPoint df r c s m).projected_users =
      baseline_users df s * (1 + r) ^ m ∧
    (growthPoint df r c s m).projected_cost_usd =
      baseline_credits df s * (1 + r) ^ m * c ∧
    (growthPoint df r c s m).cost_per_user_usd =
      (if 0 < baseline_users df s * (1 + r) ^ m then
        baseline_credits df s * (1 + r) ^ m * c /
          (baseline_users df s * (1 + r) ^ m)
       else 0) ∧
    (growthPoint df r c s m).growth_rate = r :=
  ⟨rfl, rfl, rfl, rfl, rfl, rfl, rfl⟩

/-- Per-service baseline credits are non-negative when every input record's
credits are. -/
theorem baseline_credits_nonneg {df : List UsageRecord}
    (hcred : ∀ u ∈ df, 0 ≤ u.total_credits) (s : String) :
    0 ≤ baseline_credits df s := by
  apply List.sum_nonneg
  intro x hx
  simp only [List.mem_map, List.mem_filter] at hx
  obtain ⟨u, ⟨hu, _⟩, rfl⟩ := hx
  exact hcred u hu

/-! ## Claims -/

/-- C1: for every input series, growth rate `r > -1`, cost rate `c` and
horizon `H ≥ 1`, the Growth Projection Engine emits, for every service
present in the input and every month `m ∈ [1..H]`, a point with
`projected_credits = baseline_credits * (1+r)^m`, `projected_users =
baseline_users * (1+r)^m` and `projected_cost_usd = projected_credits * c`,
where the baselines are the full-history per-service credit sum and user
mean; moreover every emitted point has this shape. -/
theorem C1_growth_projection_formula (df : List UsageRecord) (r c : ℚ)
    (H : ℕ) (_hr : -1 < r) (_hH : 1 ≤ H) :
    (∀ s, (∃ u ∈ df, u.service_type = s) → ∀ m, 1 ≤ m → m ≤ H →
      ∃ p ∈ calculate_growth_projection df r H c,
        p.month = m ∧ p.service_type = s ∧
        p.projected_credits = baseline_credits df s * (1 + r) ^ m ∧
        p.projected_users = baseline_users df s * (1 + r) ^ m ∧
        p.projected_cost_usd = p.projected_credits * c) ∧
    (∀ p ∈ calculate_growth_projection df r H c,
      p.projected_credits =
        baseline_credits df p.service_type * (1 + r) ^ p.month ∧
      p.projected_users =
        baseline_users df p.service_type * (1 + r) ^ p.month ∧
      p.projected_cost_usd = p.projected_credits * c) := by
  constructor
  · intro s hs m hm1 hm2
    exact ⟨growthPoint df r c s m,
      mem_growth_projection.mpr ⟨s, mem_services.mpr hs, m, hm1, hm2, rfl⟩,
      rfl, rfl, rfl, rfl, rfl⟩
  · intro p hp
    obtain ⟨s, hs, m, hm1, hm2, rfl⟩ := mem_growth_projection.mp hp
    exact ⟨rfl, rfl, rfl⟩

/-- Witness for C1 at a concrete input: one record of service `A` with 1000
credits, `r = 0.25`, `c = 3`, `H = 2`, month 1. -/
theorem C1_growth_projection_formula_witness :
    ∃ p ∈ calculate_growth_projection [⟨0, "A", 2, 4, 1000⟩] (1/4) 2 3,
      p.month = 1 ∧ p.service_type = "A" ∧
      p.projected_credits =
        baseline_credits [⟨0, "A", 2, 4, 1000⟩] "A" * (1 + 1/4) ^ 1 ∧
      p.projected_users =
        baseline_users [⟨0, "A", 2, 4, 1000⟩] "A" * (1 + 1/4) ^ 1 ∧
      p.projected_cost_usd = p.projected_credits * 3 :=
  (C1_growth_projection_formula [⟨0, "A", 2, 4, 1000⟩] (1/4) 3 2
      (by norm_num) (by norm_num)).1 "A"
    ⟨⟨0, "A", 2, 4, 1000⟩, List.mem_singleton.mpr rfl, rfl⟩ 1
    (by norm_num) (by norm_num)

/-- C8: with non-negative input credits and growth rate `r ≥ 0`,
`projected_credits` is monotone in the month within each service, and
constant across months when `r = 0`. -/
theorem C8_monotonic_compounding (df : List UsageRecord) (r c : ℚ) (H : ℕ)
    (hcred : ∀ u ∈ df, 0 ≤ u.total_credits) (hr : 0 ≤ r) :
    (∀ p1 ∈ calculate_growth_projection df r H c,
      ∀ p2 ∈ calculate_growth_projection df r H c,
        p1.service_type = p2.service_type → p1.month < p2.month →
          p1.projected_credits ≤ p2.projected_credits) ∧
    (r = 0 →
      ∀ p1 ∈ calculate_growth_projection df r H c,
        ∀ p2 ∈ calculate_growth_projection df r H c,
          p1.service_type = p2.service_type →
            p1.projected_credits = p2.projected_credits) := by
  constructor
  · intro p1 hp1 p2 hp2 hsvc hlt
    obtain ⟨s1, hs1, m1, hm11, hm12, rfl⟩ := mem_growth_projection.mp hp1
    obtain ⟨s2, hs2, m2, hm21, hm22, rfl⟩ := mem_growth_projection.mp hp2
    have hs : s1 = s2 := hsvc
    subst hs
    have hm : m1 < m2 := hlt
    have hle : ((1 : ℚ) + r) ^ m1 ≤ (1 + r) ^ m2 :=
      pow_le_pow_right₀ (by linarith) (le_of_lt hm)
    show baseline_credits df s1 * (1 + r) ^ m1 ≤
      baseline_credits df s1 * (1 + r) ^ m2
    exact mul_le_mul_of_nonneg_left hle (baseline_credits_nonneg hcred s1)
  · intro hr0 p1 hp1 p2 hp2 hsvc
    obtain ⟨s1, hs1, m1, hm11, hm12, rfl⟩ := mem_growth_projection.mp hp1
    obtain ⟨s2, hs2, m2, hm21, hm22, rfl⟩ := mem_growth_projection.mp hp2
    have hs : s1 = s2 := hsvc
    subst hs hr0
    show baseline_credits df s1 * (1 + 0) ^ m1 =
      baseline_credits df s1 * (1 + 0) ^ m2
    norm_num

/-- Witness for C8 at a concrete input. -/
theorem C8_monotonic_compounding_witness :
    (∀ u ∈ [(⟨0, "A", 1, 1, 10⟩ : UsageRecord)], 0 ≤ u.total_credits) ∧
    (0 : ℚ) ≤ 1/4 ∧
    ((∀ p1 ∈ calculate_growth_projection [⟨0, "A", 1, 1, 10⟩] (1/4) 2 3,
      ∀ p2 ∈ calculate_growth_projection [⟨0, "A", 1, 1, 10⟩] (1/4) 2 3,
        p1.service_type = p2.service_type → p1.month < p2.month →
          p1.projected_credits ≤ p2.projected_credits) ∧
    ((1 : ℚ)/4 = 0 →
      ∀ p1 ∈ calculate_growth_projection [⟨0, "A", 1, 1, 10⟩] (1/4) 2 3,
        ∀ p2 ∈ calculate_growth_projection [⟨0, "A", 1, 1, 10⟩] (1/4) 2 3,
          p1.service_type = p2.service_type →
            p1.projected_credits = p2.projected_credits)) :=
  ⟨by intro u hu; simp at hu; subst hu; norm_num, by norm_num,
    C8_monotonic_compounding [⟨0, "A", 1, 1, 10⟩] (1/4) 3 2
      (by intro u hu; simp at hu; subst hu; norm_num) (by norm_num)⟩

/-- C10: whenever the full-history `baseline_users` of a service is
positive (and `r > -1`), every emitted point of that service has
`cost_per_user_usd = baseline_credits * c / baseline_users`: the same value
for every month, independent of the growth rate. -/
theorem C10_cost_per_user_constant (df : List UsageRecord) (r c : ℚ) (H : ℕ)
    (s : String) (hr : -1 < r) (hbu : 0 < baseline_users df s) :
    ∀ p ∈ calculate_growth_projection df r H c, p.service_type = s →
      p.cost_per_user_usd = baseline_credits df s * c / baseline_users df s := by
  intro p hp hps
  obtain ⟨s', hs', m, hm1, hm2, rfl⟩ := mem_growth_projection.mp hp
  have hs : s' = s := hps
  subst hs
  have hf : (0 : ℚ) < (1 + r) ^ m := pow_pos (by linarith) m
  have hu : 0 < baseline_users df s' * (1 + r) ^ m := mul_pos hbu hf
  show (if 0 < baseline_users df s' * (1 + r) ^ m then
      baseline_credits df s' * (1 + r) ^ m * c /
        (baseline_users df s' * (1 + r) ^ m)
    else 0) = baseline_credits df s' * c / baseline_users df s'
  rw [if_pos hu]
  field_simp
  ring

/-- Witness for C10 at a concrete input with positive baseline users. -/
theorem C10_cost_per_user_constant_witness :
    (-1 : ℚ) < 1/4 ∧ 0 < baseline_users [⟨0, "A", 2, 0, 10⟩] "A" ∧
    (∀ p ∈ calculate_growth_projection [⟨0, "A", 2, 0, 10⟩] (1/4) 2 3,
      p.service_type = "A" →
      p.cost_per_user_usd =
        baseline_credits [⟨0, "A", 2, 0, 10⟩] "A" * 3 /
          baseline_users [⟨0, "A", 2, 0, 10⟩] "A") :=
  ⟨by norm_num, by simp +decide [baseline_users],
    C10_cost_per_user_constant [⟨0, "A", 2, 0, 10⟩] (1/4) 3 2 "A"
      (by norm_num) (by simp +decide [baseline_users])⟩

/-- C6: for every input series, every service and every 0-indexed position
`i` of that service's date-ascending sequence, the rolling aggregate at `i`
is computed over exactly the records `[i+1-30 .. i]` (that is
`[max(0, i-29) .. i]`) of that service alone: one aggregate row per record,
the window has `min (i+1) 30 ≤ 30` records, its `j`-th entry is record
`i+1-30+j` of the service's own sequence, every window record carries the
service's type (so no foreign service enters even on shared dates), and the
aggregate of the first record equals that record's own values. -/
theorem C6_rolling_window (df : List UsageRecord) (s : String) (i : ℕ)
    (hi : i < (serviceGroup df s).length) :
    (aggsFor df s).length = (serviceGroup df s).length ∧
    (aggsFor df s).get? i =
      ((serviceGroup df s).get? i).map
        (fun u => rollingAgg (serviceGroup df s) i u) ∧
    (window30 (serviceGroup df s) i).length = min (i + 1) 30 ∧
    (window30 (serviceGroup df s) i).length ≤ 30 ∧
    (∀ j, j < min (i + 1) 30 →
      (window30 (serviceGroup df s) i).get? j =
        (serviceGroup df s).get? (i + 1 - 30 + j)) ∧
    (∀ u ∈ window30 (serviceGroup df s) i, u.service_type = s) ∧
    (∀ a, (aggsFor df s).get? 0 = some a →
      a.credits_30d_total = a.record.total_credits ∧
      a.operations_30d_total = a.record.total_operations ∧
      a.users_30d_avg = a.record.daily_unique_users) := by
  refine ⟨by simp [aggsFor], ?_, ?_, ?_, ?_, ?_, ?_⟩
  · simp only [aggsFor, List.get?_map, List.enum_get?]
    cases hx : (serviceGroup df s)[i]? <;> simp [hx]
  · simp only [window30, List.length_drop, List.length_take]
    omega
  · simp only [window30, List.length_drop, List.length_take]
    omega
  · intro j hj
    simp only [window30]
    rw [List.get?_drop, List.get?_take (by omega)]
  · intro u hu
    simp only [window30] at hu
    have hu1 : u ∈ serviceGroup df s :=
      List.mem_of_mem_take (List.mem_of_mem_drop hu)
    have hu2 := (List.mem_filter.mp hu1).2
    simpa using hu2
  · intro a ha
    obtain ⟨r0, t, hg⟩ : ∃ r0 t, serviceGroup df s = r0 :: t := by
      cases hgg : serviceGroup df s with
      | nil => rw [hgg] at hi; simp at hi
      | cons r0 t => exact ⟨r0, t, rfl⟩
    have ha2 : a = rollingAgg (r0 :: t) 0 r0 := by
      simp [aggsFor, hg, List.get?_map, List.enum_get?] at ha
      exact ha.symm
    subst ha2
    refine ⟨?_, ?_, ?_⟩ <;> simp [rollingAgg, window30]

/-- Witness for C6 at a concrete one-record input, position 0. -/
theorem C6_rolling_window_witness :
    0 < (serviceGroup [⟨0, "A", 1, 2, 3⟩] "A").length ∧
    ((aggsFor [⟨0, "A", 1, 2, 3⟩] "A").length =
      (serviceGroup [⟨0, "A", 1, 2, 3⟩] "A").length ∧
    (aggsFor [⟨0, "A", 1, 2, 3⟩] "A").get? 0 =
      ((serviceGroup [⟨0, "A", 1, 2, 3⟩] "A").get? 0).map
        (fun u => rollingAgg (serviceGroup [⟨0, "A", 1, 2, 3⟩] "A") 0 u) ∧
    (window30 (serviceGroup [⟨0, "A", 1, 2, 3⟩] "A") 0).length = min (0 + 1) 30 ∧
    (window30 (serviceGroup [⟨0, "A", 1, 2, 3⟩] "A") 0).length ≤ 30 ∧
    (∀ j, j < min (0 + 1) 30 →
      (window30 (serviceGroup [⟨0, "A", 1, 2, 3⟩] "A") 0).get? j =
        (serviceGroup [⟨0, "A", 1, 2, 3⟩] "A").get? (0 + 1 - 30 + j)) ∧
    (∀ u ∈ window30 (serviceGroup [⟨0, "A", 1, 2, 3⟩] "A") 0,
      u.service_type = "A") ∧
    (∀ a, (aggsFor [⟨0, "A", 1, 2, 3⟩] "A").get? 0 = some a →
      a.credits_30d_total = a.record.total_credits ∧
      a.operations_30d_total = a.record.total_operations ∧
      a.users_30d_avg = a.record.daily_unique_users)) := by
  have h : 0 < (serviceGroup [⟨0, "A", 1, 2, 3⟩] "A").length := by
    simp +decide [serviceGroup, sortByDateAsc, List.insertionSort]
  exact ⟨h, C6_rolling_window [⟨0, "A", 1, 2, 3⟩] "A" 0 h⟩

/-- Membership in `calculate_30day_totals`: the descending sort is a
permutation, so the rows are exactly the per-service aggregate rows. -/
theorem mem_calculate_30day_totals {df : List UsageRecord} {a : AggRow} :
    a ∈ calculate_30day_totals df ↔ ∃ s ∈ services df, a ∈ aggsFor df s := by
  unfold calculate_30day_totals
  rw [(List.perm_insertionSort _ _).mem_iff]
  simp [List.mem_flatMap]

/-- Every output row's `cost_per_user_30d` is the guarded-by-`fillna` float
quotient of its own `credits_30d_total` and `users_30d_avg` columns. -/
theorem cost_field_spec (df : List UsageRecord) :
    ∀ a ∈ calculate_30day_totals df,
      a.cost_per_user_30d =
        PVal.fillna0 (PVal.pdiv (PVal.num a.credits_30d_total)
          (PVal.num a.users_30d_avg)) := by
  intro a ha
  obtain ⟨s, hs, ha2⟩ := mem_calculate_30day_totals.mp ha
  simp only [aggsFor, List.mem_map] at ha2
  obtain ⟨⟨i, u⟩, hmem, rfl⟩ := ha2
  rfl

/-- C2 (amended): in every rolling aggregate with `users_30d_avg = 0`,
`cost_per_user_30d` is 0 exactly when `credits_30d_total` is 0 (the 0/0 NaN
case, caught by `fillna(0)`), and is `+inf` when `credits_30d_total` is
strictly positive (`fillna` does not replace infinities). -/
theorem C2_zero_users_cost (df : List UsageRecord) :
    ∀ a ∈ calculate_30day_totals df, a.users_30d_avg = 0 →
      (a.credits_30d_total = 0 → a.cost_per_user_30d = PVal.num 0) ∧
      (0 < a.credits_30d_total → a.cost_per_user_30d = PVal.inf) := by
  intro a ha h0
  rw [cost_field_spec df a ha, h0]
  constructor
  · intro hc
    rw [hc]
    simp [PVal.pdiv, PVal.fillna0]
  · intro hpos
    simp [PVal.pdiv, PVal.fillna0, hpos, hpos.ne']

/-- C2 counterexample to the claim as stated: a single record with 5 credits
and 0 users yields an aggregate with `users_30d_avg = 0` and positive
`credits_30d_total` whose `cost_per_user_30d` is `inf`, not 0. -/
theorem C2_counterexample :
    ∃ a ∈ calculate_30day_totals [⟨0, "A", 0, 0, 5⟩],
      a.users_30d_avg = 0 ∧ 0 < a.credits_30d_total ∧
      a.cost_per_user_30d = PVal.inf ∧ a.cost_per_user_30d ≠ PVal.num 0 := by
  refine ⟨rollingAgg [⟨0, "A", 0, 0, 5⟩] 0 ⟨0, "A", 0, 0, 5⟩, ?_, ?_, ?_, ?_, ?_⟩
  · rw [mem_calculate_30day_totals]
    refine ⟨"A", by simp [services], ?_⟩
    simp +decide [aggsFor, serviceGroup, sortByDateAsc, List.insertionSort]
  · simp [rollingAgg, window30]
  · norm_num [rollingAgg, window30]
  · norm_num [rollingAgg, window30, PVal.pdiv, PVal.fillna0]
  · norm_num [rollingAgg, window30, PVal.pdiv, PVal.fillna0]
    decide

/-- Witness for C2 (amended) at a concrete input hitting the 0/0 branch. -/
theorem C2_zero_users_cost_witness :
    ∃ a ∈ calculate_30day_totals [⟨0, "A", 0, 0, 0⟩],
      a.users_30d_avg = 0 ∧
      ((a.credits_30d_total = 0 → a.cost_per_user_30d = PVal.num 0) ∧
       (0 < a.credits_30d_total → a.cost_per_user_30d = PVal.inf)) := by
  have hmem : rollingAgg [⟨0, "A", 0, 0, 0⟩] 0 ⟨0, "A", 0, 0, 0⟩ ∈
      calculate_30day_totals [⟨0, "A", 0, 0, 0⟩] := by
    rw [mem_calculate_30day_totals]
    refine ⟨"A", by simp [services], ?_⟩
    simp +decide [aggsFor, serviceGroup, sortByDateAsc, List.insertionSort]
  have h0 : (rollingAgg [⟨0, "A", 0, 0, 0⟩] 0 ⟨0, "A", 0, 0, 0⟩).users_30d_avg = 0 := by
    simp [rollingAgg, window30]
  exact ⟨_, hmem, h0, C2_zero_users_cost [⟨0, "A", 0, 0, 0⟩] _ hmem h0⟩

/-- C3: the code intends (per its own comments and the spec) to use the
most-recent aggregate per service, but `calculate_30day_totals` returns the
frame sorted descending by date and `groupby('SERVICE_TYPE').last()` takes
the last row in frame order, which is then the chronologically FIRST
record.  At the two-record input below the consumed reference aggregate is
the one attached to date 0 with `credits_30d_total = 10`, while the
aggregate attached to the chronologically-last record (date 1) has
`credits_30d_total = 30`. -/
theorem C3_reference_uses_first_record :
    (latest_30d_row [⟨0, "A", 1, 1, 10⟩, ⟨1, "A", 1, 1, 20⟩] "A").map
        (fun a => (a.record.date, a.credits_30d_total)) = some (0, 10) ∧
    ∃ b ∈ calculate_30day_totals [⟨0, "A", 1, 1, 10⟩, ⟨1, "A", 1, 1, 20⟩],
      b.record.date = 1 ∧ b.credits_30d_total = 30 ∧
      latest_30d_row [⟨0, "A", 1, 1, 10⟩, ⟨1, "A", 1, 1, 20⟩] "A" ≠ some b := by
  have hcalc : calculate_30day_totals [⟨0, "A", 1, 1, 10⟩, ⟨1, "A", 1, 1, 20⟩] =
      [⟨⟨1, "A", 1, 1, 20⟩, 30, 2, 1, PVal.num 30⟩,
       ⟨⟨0, "A", 1, 1, 10⟩, 10, 1, 1, PVal.num 10⟩] := by
    norm_num [calculate_30day_totals, services, aggsFor, serviceGroup,
      sortByDateAsc, List.insertionSort, List.orderedInsert, rollingAgg,
      window30, PVal.pdiv, PVal.fillna0, List.enum, List.enumFrom]
  constructor
  · rw [latest_30d_row, groupbyLast, hcalc]
    norm_num
  · refine ⟨⟨⟨1, "A", 1, 1, 20⟩, 30, 2, 1, PVal.num 30⟩, by rw [hcalc]; simp,
      rfl, rfl, ?_⟩
    rw [latest_30d_row, groupbyLast, hcalc]
    norm_num

/-- C4 (amended): when the reference aggregate of a service has
`operations_30d_total = 0`, the unguarded `cost_per_request` division yields
NaN when the numerator `credits_30d_total * c` is 0 and `+inf` when it is
positive — never 0; the fallback path behaves the same on zero total
operations. -/
theorem C4_zero_ops_cost_per_request (df : List UsageRecord) (s : String)
    (c : ℚ) (a : AggRow) (_ha : latest_30d_row df s = some a)
    (hops : a.operations_30d_total = 0) :
    (a.credits_30d_total * c = 0 → cost_per_request c a = PVal.nan) ∧
    (0 < a.credits_30d_total * c → cost_per_request c a = PVal.inf) ∧
    (∀ df2 : List UsageRecord, ∀ s2 : String,
      ((df2.filter (fun r => r.service_type = s2)).map (·.total_operations)).sum = 0 →
      (((df2.filter (fun r => r.service_type = s2)).map (·.total_credits)).sum * c = 0 →
        fallback_cost_per_request df2 c s2 = PVal.nan) ∧
      (0 < ((df2.filter (fun r => r.service_type = s2)).map (·.total_credits)).sum * c →
        fallback_cost_per_request df2 c s2 = PVal.inf)) := by
  refine ⟨?_, ?_, ?_⟩
  · intro h0
    simp [cost_per_request, hops, PVal.pdiv, h0]
  · intro hpos
    simp [cost_per_request, hops, PVal.pdiv, hpos]
  · intro df2 s2 hops2
    constructor
    · intro h0
      simp [fallback_cost_per_request, hops2, PVal.pdiv, h0]
    · intro hpos
      simp [fallback_cost_per_request, hops2, PVal.pdiv, hpos]

/-- C4 counterexample to the claim as stated: one record with 7 credits and
0 operations; the reference aggregate has `operations_30d_total = 0` but
`cost_per_request` at `c = 3` is `inf`, not 0. -/
theorem C4_counterexample :
    ∃ a, latest_30d_row [⟨0, "A", 5, 0, 7⟩] "A" = some a ∧
      a.operations_30d_total = 0 ∧ 0 < a.credits_30d_total ∧
      cost_per_request 3 a = PVal.inf ∧ cost_per_request 3 a ≠ PVal.num 0 := by
  have hcalc : calculate_30day_totals [⟨0, "A", 5, 0, 7⟩] =
      [⟨⟨0, "A", 5, 0, 7⟩, 7, 0, 5, PVal.num (7/5)⟩] := by
    norm_num [calculate_30day_totals, services, aggsFor, serviceGroup,
      sortByDateAsc, List.insertionSort, List.orderedInsert, rollingAgg,
      window30, PVal.pdiv, PVal.fillna0, List.enum, List.enumFrom]
  refine ⟨⟨⟨0, "A", 5, 0, 7⟩, 7, 0, 5, PVal.num (7/5)⟩, ?_, rfl, by norm_num, ?_, ?_⟩
  · rw [latest_30d_row, groupbyLast, hcalc]
    norm_num
  · norm_num [cost_per_request, PVal.pdiv]
  · norm_num [cost_per_request, PVal.pdiv]
    decide

/-- Witness for C4 (amended) at a concrete input hitting the NaN branch. -/
theorem C4_zero_ops_cost_per_request_witness :
    ∃ a, latest_30d_row [⟨0, "A", 5, 0, 0⟩] "A" = some a ∧
      a.operations_30d_total = 0 ∧ a.credits_30d_total * 3 = 0 ∧
      cost_per_request 3 a = PVal.nan := by
  have hcalc : calculate_30day_totals [⟨0, "A", 5, 0, 0⟩] =
      [⟨⟨0, "A", 5, 0, 0⟩, 0, 0, 5, PVal.num 0⟩] := by
    norm_num [calculate_30day_totals, services, aggsFor, serviceGroup,
      sortByDateAsc, List.insertionSort, List.orderedInsert, rollingAgg,
      window30, PVal.pdiv, PVal.fillna0, List.enum, List.enumFrom]
  have ha : latest_30d_row [⟨0, "A", 5, 0, 0⟩] "A" =
      some ⟨⟨0, "A", 5, 0, 0⟩, 0, 0, 5, PVal.num 0⟩ := by
    rw [latest_30d_row, groupbyLast, hcalc]
    norm_num
  refine ⟨_, ha, rfl, by norm_num, ?_⟩
  exact (C4_zero_ops_cost_per_request [⟨0, "A", 5, 0, 0⟩] "A" 3 _ ha rfl).1
    (by norm_num)

/-- C5 (amended): the required-column check of `load_data_from_csv` is
case-sensitive: it succeeds exactly when the three exact-uppercase names are
present in the raw header (upper-casing happens only after the check), and
any failure reports a non-empty list of missing columns. -/
theorem C5_schema_check_exact_case (cols : List String) :
    ((∃ u, load_data_from_csv cols = LoadResult.ok u) ↔
      "DATE" ∈ cols ∧ "SERVICE_TYPE" ∈ cols ∧ "TOTAL_CREDITS" ∈ cols) ∧
    (∀ m, load_data_from_csv cols = LoadResult.schemaError m → m ≠ []) := by
  by_cases h1 : "DATE" ∈ cols <;> by_cases h2 : "SERVICE_TYPE" ∈ cols <;>
    by_cases h3 : "TOTAL_CREDITS" ∈ cols <;>
    simp [load_data_from_csv, h1, h2, h3]

/-- C5 counterexample to the claim as stated: all-lowercase headers contain
the three required fields up to case, yet the Normalizer fails with a
`SchemaError` listing all three columns as missing. -/
theorem C5_counterexample :
    load_data_from_csv ["date", "service_type", "total_credits"] =
      LoadResult.schemaError ["DATE", "SERVICE_TYPE", "TOTAL_CREDITS"] ∧
    ["date", "service_type", "total_credits"].map upperName =
      ["DATE", "SERVICE_TYPE", "TOTAL_CREDITS"] := by
  constructor <;> decide

/-- Witness for C5 (amended): with the exact-uppercase header the check
succeeds. -/
theorem C5_schema_check_exact_case_witness :
    ∃ u, load_data_from_csv ["DATE", "SERVICE_TYPE", "TOTAL_CREDITS"] =
      LoadResult.ok u :=
  (C5_schema_check_exact_case ["DATE", "SERVICE_TYPE", "TOTAL_CREDITS"]).1.mpr
    ⟨by decide, by decide, by decide⟩

/-- Splitting a mapped sum along a Boolean predicate. -/
theorem sum_map_filter_add (l : List UsageRecord) (p : UsageRecord → Bool)
    (g : UsageRecord → ℚ) :
    ((l.filter p).map g).sum + ((l.filter (fun x => !p x)).map g).sum =
      (l.map g).sum := by
  induction l with
  | nil => simp
  | cons a t ih =>
    cases h : p a <;> simp [List.filter_cons, h, ← ih] <;> ring

/-- Filtering away another service key leaves a service's credits sum
unchanged. -/
theorem baseline_credits_filter_ne (df : List UsageRecord) (k s : String)
    (hne : s ≠ k) :
    baseline_credits (df.filter (fun u => !(decide (u.service_type = k)))) s =
      baseline_credits df s := by
  unfold baseline_credits
  rw [List.filter_filter]
  have heq : List.filter
      (fun a => decide (a.service_type = s) && !decide (a.service_type = k)) df =
      List.filter (fun r => decide (r.service_type = s)) df := by
    apply List.filter_congr
    intro u _
    by_cases h : u.service_type = s
    · simp [h, hne]
    · simp [h]
  rw [heq]

/-- A credits sum over pairwise-distinct service keys covering every record
equals the total credits sum. -/
theorem sum_partition : ∀ keys : List String, keys.Nodup →
    ∀ df : List UsageRecord, (∀ u ∈ df, u.service_type ∈ keys) →
    (keys.map (fun s => baseline_credits df s)).sum =
      (df.map (·.total_credits)).sum := by
  intro keys
  induction keys with
  | nil =>
    intro _ df hcov
    cases df with
    | nil => simp
    | cons u t => exact absurd (hcov u (by simp)) (by simp)
  | cons k ks ih =>
    intro hnd df hcov
    have hnd2 := List.nodup_cons.mp hnd
    have hdf2 : ∀ u ∈ df.filter (fun u => !(decide (u.service_type = k))),
        u.service_type ∈ ks := by
      intro u hu
      have h1 := List.mem_filter.mp hu
      have h3 : u.service_type ≠ k := by simpa using h1.2
      have h2 := hcov u h1.1
      simp only [List.mem_cons] at h2
      exact h2.resolve_left h3
    have hmapeq : ks.map (fun s => baseline_credits df s) =
        ks.map (fun s =>
          baseline_credits (df.filter (fun u => !(decide (u.service_type = k)))) s) := by
      apply List.map_congr_left
      intro s hs
      exact (baseline_credits_filter_ne df k s (fun he => hnd2.1 (he ▸ hs))).symm
    have hih := ih hnd2.2 (df.filter (fun u => !(decide (u.service_type = k)))) hdf2
    have hsplit := sum_map_filter_add df (fun u => decide (u.service_type = k))
      (·.total_credits)
    simp only [List.map_cons, List.sum_cons]
    rw [hmapeq, hih]
    unfold baseline_credits
    linarith [hsplit]

/-- A Python float `sum` over finite cells is the rational sum. -/
theorem psum_map_num {α : Type} (l : List α) (f : α → ℚ) :
    PVal.psum (l.map (fun a => PVal.num (f a))) = PVal.num ((l.map f).sum) := by
  suffices h : ∀ q : ℚ, (l.map (fun a => PVal.num (f a))).foldl PVal.padd
      (PVal.num q) = PVal.num (q + (l.map f).sum) by
    simpa [PVal.psum] using h 0
  induction l with
  | nil => intro q; simp
  | cons a t ih =>
    intro q
    simp [PVal.padd, ih, add_assoc]

/-- Pulling a constant factor out of a mapped sum. -/
theorem sum_map_mul_const {α : Type} (l : List α) (f : α → ℚ) (c : ℚ) :
    (l.map (fun a => f a * c)).sum = (l.map f).sum * c := by
  induction l with
  | nil => simp
  | cons a t ih =>
    simp [ih]
    ring

/-- C7 (amended): with non-negative input credits, when the grand total is
positive the per-service `PCT_OF_TOTAL` shares sum to exactly 100; when the
grand total is 0, every service's share is NaN (an unguarded 0/0 with no
`fillna`), not 0. -/
theorem C7_pct_breakdown (df : List UsageRecord)
    (hcred : ∀ u ∈ df, 0 ≤ u.total_credits) :
    (0 < grand_total_credits df →
      PVal.psum ((services df).map (fun s => pct_of_total df s)) =
        PVal.num 100) ∧
    (grand_total_credits df = 0 →
      ∀ s ∈ services df, pct_of_total df s = PVal.nan) := by
  constructor
  · intro hpos
    have hne : grand_total_credits df ≠ 0 := ne_of_gt hpos
    have h1 : ∀ s ∈ services df, pct_of_total df s =
        PVal.num (baseline_credits df s * (100 / grand_total_credits df)) := by
      intro s _
      simp [pct_of_total, PVal.pdiv, PVal.pmulc, hne]
      ring
    rw [List.map_congr_left h1, psum_map_num, sum_map_mul_const]
    show PVal.num (grand_total_credits df * (100 / grand_total_credits df)) =
      PVal.num 100
    congr 1
    field_simp
  · intro h0 s hs
    have hnn : 0 ≤ baseline_credits df s := baseline_credits_nonneg hcred s
    have hle : baseline_credits df s ≤ grand_total_credits df := by
      apply List.single_le_sum
      · intro x hx
        simp only [List.mem_map] at hx
        obtain ⟨s2, _, rfl⟩ := hx
        exact baseline_credits_nonneg hcred s2
      · exact List.mem_map_of_mem _ hs
    have hz : baseline_credits df s = 0 := le_antisymm (h0 ▸ hle) hnn
    simp [pct_of_total, hz, h0, PVal.pdiv, PVal.pmulc]

/-- C7 counterexample to the claim as stated: a single service whose credits
are all 0 has grand total 0, and its share is NaN, not the claimed 0%. -/
theorem C7_counterexample :
    grand_total_credits [⟨0, "A", 1, 1, 0⟩] = 0 ∧
    pct_of_total [⟨0, "A", 1, 1, 0⟩] "A" = PVal.nan ∧
    pct_of_total [⟨0, "A", 1, 1, 0⟩] "A" ≠ PVal.num 0 := by
  refine ⟨?_, ?_, ?_⟩
  · norm_num [grand_total_credits, baseline_credits, services]
  · norm_num [pct_of_total, grand_total_credits, baseline_credits, services,
      PVal.pdiv, PVal.pmulc]
  · norm_num [pct_of_total, grand_total_credits, baseline_credits, services,
      PVal.pdiv, PVal.pmulc]
    decide

/-- Witness for C7 at a concrete input with positive grand total. -/
theorem C7_pct_breakdown_witness :
    (∀ u ∈ [(⟨0, "A", 1, 1, 4⟩ : UsageRecord)], 0 ≤ u.total_credits) ∧
    ((0 < grand_total_credits [⟨0, "A", 1, 1, 4⟩] →
      PVal.psum ((services [⟨0, "A", 1, 1, 4⟩]).map
        (fun s => pct_of_total [⟨0, "A", 1, 1, 4⟩] s)) = PVal.num 100) ∧
    (grand_total_credits [⟨0, "A", 1, 1, 4⟩] = 0 →
      ∀ s ∈ services [⟨0, "A", 1, 1, 4⟩],
        pct_of_total [⟨0, "A", 1, 1, 4⟩] s = PVal.nan)) :=
  ⟨by intro u hu; simp at hu; subst hu; norm_num,
    C7_pct_breakdown [⟨0, "A", 1, 1, 4⟩]
      (by intro u hu; simp at hu; subst hu; norm_num)⟩

/-- C9: whenever the single service's reference aggregate has
`operations_30d_total = 3000` and `credits_30d_total = 30` and the credit
cost is 3.00, the Persona Cost Estimator computes `cost_per_request = 0.03`
and a blended `avg_cost_per_request = 0.03`, and a persona with 10 users and
20 requests/day gets `monthly_requests = 600`, `cost_per_user_monthly =
18.00` and `total_cost_monthly = 180.00`. -/
theorem C9_persona_estimate (df : List UsageRecord) (s : String) (a : AggRow)
    (hserv : services df = [s]) (ha : latest_30d_row df s = some a)
    (hops : a.operations_30d_total = 3000) (hcred : a.credits_30d_total = 30)
    (p : Persona) (hcount : p.count = 10) (hreq : p.requests_per_day = 20) :
    cost_per_request 3 a = PVal.num (3/100) ∧
    avg_cost_per_request df 3 = PVal.num (3/100) ∧
    monthly_requests p = 600 ∧
    cost_per_user_monthly df 3 p = PVal.num 18 ∧
    total_cost_monthly df 3 p = PVal.num 180 := by
  have hrows : latestRows df = [a] := by
    simp [latestRows, hserv, ha]
  have hcpr : cost_per_request 3 a = PVal.num (3/100) := by
    simp [cost_per_request, hops, hcred, PVal.pdiv]
    norm_num
  have hrpd : requests_per_day a = 100 := by
    rw [requests_per_day, hops]
    norm_num
  have htot : total_ops df = 3000 := by
    rw [total_ops, hrows]
    simp [hrpd]
    norm_num
  have hcost : total_cost_30d df 3 = PVal.num 90 := by
    rw [total_cost_30d, hrows]
    simp [hcpr, hrpd, PVal.psum, PVal.pmulc, PVal.padd]
    norm_num
  have havg : avg_cost_per_request df 3 = PVal.num (3/100) := by
    rw [avg_cost_per_request, if_pos (by rw [htot]; norm_num), htot, hcost]
    simp [PVal.pdiv]
    norm_num
  have hmr : monthly_requests p = 600 := by
    rw [monthly_requests, hreq]
  have hcpm : cost_per_user_monthly df 3 p = PVal.num 18 := by
    rw [cost_per_user_monthly, havg, hmr]
    simp [PVal.pmulc]
    norm_num
  have htcm : total_cost_monthly df 3 p = PVal.num 180 := by
    rw [total_cost_monthly, hcpm, hcount]
    simp [PVal.pmulc]
    norm_num
  exact ⟨hcpr, havg, hmr, hcpm, htcm⟩

/-- Witness for C9: a single 30-day-equivalent record with 3000 operations
and 30 credits, credit cost 3, persona of 10 users at 20 requests/day. -/
theorem C9_persona_estimate_witness :
    cost_per_request 3 ⟨⟨0, "A", 10, 3000, 30⟩, 30, 3000, 10, PVal.num 3⟩ =
      PVal.num (3/100) ∧
    avg_cost_per_request [⟨0, "A", 10, 3000, 30⟩] 3 = PVal.num (3/100) ∧
    monthly_requests ⟨"Analyst", 10, 20⟩ = 600 ∧
    cost_per_user_monthly [⟨0, "A", 10, 3000, 30⟩] 3 ⟨"Analyst", 10, 20⟩ =
      PVal.num 18 ∧
    total_cost_monthly [⟨0, "A", 10, 3000, 30⟩] 3 ⟨"Analyst", 10, 20⟩ =
      PVal.num 180 := by
  have hcalc : calculate_30day_totals [⟨0, "A", 10, 3000, 30⟩] =
      [⟨⟨0, "A", 10, 3000, 30⟩, 30, 3000, 10, PVal.num 3⟩] := by
    norm_num [calculate_30day_totals, services, aggsFor, serviceGroup,
      sortByDateAsc, List.insertionSort, List.orderedInsert, rollingAgg,
      window30, PVal.pdiv, PVal.fillna0, List.enum, List.enumFrom]
  have ha : latest_30d_row [⟨0, "A", 10, 3000, 30⟩] "A" =
      some ⟨⟨0, "A", 10, 3000, 30⟩, 30, 3000, 10, PVal.num 3⟩ := by
    rw [latest_30d_row, groupbyLast, hcalc]
    norm_num
  exact C9_persona_estimate [⟨0, "A", 10, 3000, 30⟩] "A" _
    (by simp [services]) ha rfl rfl ⟨"Analyst", 10, 20⟩ rfl rfl

end CortexCalc
